import Mathlib

/-!
Verification of the session-authorization engine of the Flexer OSINT app.

The model is a shallow embedding of the TypeScript source:
  * `SessionMetadata`, `UserProfile`  — src/types.ts (the `sid` field of
    `SessionMetadata` is `Option String` because the legacy handler in
    src/App.tsx writes `pendingSessionMetadata` objects without a `sid` key,
    while src/unnamed/part_002 always includes it);
  * `createProfile`, `evalSessionCore`, `isStale`, `renderState`,
    `approvePendingSession`, `denyPendingSession` — src/unnamed/part_002
    (the current App component);
  * `evalSessionApp` — src/App.tsx (the legacy App component's handler for
    an existing profile);
  * `handleToggleAdmin`, `handleAuthorizeSession`, `handleRevokeDevice`,
    `handleDeleteUser` — src/unnamed/part_001 (AdminPanel).

Firestore writes are modelled as `Option UserProfile`: `none` means the
handler returned without issuing a write, `some p` means a write producing
profile state `p`.  JavaScript truthiness of a nullable string
(`if (!x) return`) is modelled by `pendingTruthy`.
-/

namespace Flexer

/-- Session metadata record, src/types.ts.  `sid` is optional because the
legacy writer (src/App.tsx line 62) omits it. -/
structure SessionMetadata where
  sid : Option String
  deviceName : String
  timestamp : Nat
deriving Repr, DecidableEq

/-- User profile document, src/types.ts.  Optional TS fields are modelled
with `Option` / empty list defaults matching Firestore-absent behaviour. -/
structure UserProfile where
  uid : String
  email : String
  isAdmin : Bool
  isOwner : Bool
  isApproved : Bool
  lastSessionId : String
  authorizedSessions : List SessionMetadata
  pendingSessionId : Option String
  pendingSessionMetadata : Option SessionMetadata
deriving Repr, DecidableEq

/-- Configured owner email, src/types.ts. -/
def ROOT_OWNER_EMAIL : String := "owner@flexer.io"

/-- JavaScript truthiness of a nullable string: `null`/`undefined` and the
empty string are falsy. -/
def pendingTruthy : Option String → Bool
  | none => false
  | some s => s != ""

/-- `isAdmin || isOwner`, src/unnamed/part_002 line 68. -/
def isPrivileged (p : UserProfile) : Bool :=
  p.isAdmin || p.isOwner

/-- Profile creation on first authentication, src/unnamed/part_002
lines 47-64.  The identity's email may be absent (`firebaseUser.email`
is nullable); the stored email falls back to the empty string. -/
def createProfile (uid : String) (email : Option String) (sid deviceName : String)
    (now : Nat) : UserProfile :=
  let isOwner : Bool := email == some ROOT_OWNER_EMAIL
  { uid := uid
    email := email.getD ""
    isAdmin := isOwner
    isOwner := isOwner
    isApproved := isOwner
    lastSessionId := sid
    authorizedSessions :=
      if isOwner then [{ sid := some sid, deviceName := deviceName, timestamp := now }] else []
    pendingSessionId := none
    pendingSessionMetadata := none }

/-- The existing-profile branch of the onAuthStateChanged handler in
src/unnamed/part_002 lines 66-92.  Privileged profiles self-authorize new
sessions via `arrayUnion` (only reached when no entry with this `sid`
exists, so it appends); standard profiles register a pending request
whenever the local session id differs from `lastSessionId`. -/
def evalSessionCore (p : UserProfile) (sid deviceName : String) (now : Nat) :
    Option UserProfile :=
  if p.isAdmin || p.isOwner then
    if p.authorizedSessions.any (fun m => m.sid == some sid) then
      none
    else
      some { p with authorizedSessions :=
        p.authorizedSessions ++ [{ sid := some sid, deviceName := deviceName, timestamp := now }] }
  else if p.lastSessionId != sid then
    some { p with
      pendingSessionId := some sid
      pendingSessionMetadata :=
        some { sid := some sid, deviceName := deviceName, timestamp := now } }
  else
    none

/-- Profile state after running the src/unnamed/part_002 handler (the
profile itself when no write was issued). -/
def applyEvalCore (p : UserProfile) (sid deviceName : String) (now : Nat) : UserProfile :=
  (evalSessionCore p sid deviceName now).getD p

/-- The existing-profile branch of the onAuthStateChanged handler in
src/App.tsx lines 55-68 (legacy version): no privileged branch, and the
pending metadata it writes carries no `sid` field. -/
def evalSessionApp (p : UserProfile) (sid deviceName : String) (now : Nat) :
    Option UserProfile :=
  if p.lastSessionId != sid then
    some { p with
      pendingSessionId := some sid
      pendingSessionMetadata :=
        some { sid := none, deviceName := deviceName, timestamp := now } }
  else
    none

/-- Profile state after running the src/App.tsx handler. -/
def applyEvalApp (p : UserProfile) (sid deviceName : String) (now : Nat) : UserProfile :=
  (evalSessionApp p sid deviceName now).getD p

/-- Render-time stale determination, src/unnamed/part_002 lines 173-175.
For privileged profiles only `authorizedSessions` counts; for standard
profiles the session must match neither `lastSessionId` nor
`pendingSessionId`. -/
def isStale (p : UserProfile) (currentSid : String) : Bool :=
  if p.isAdmin || p.isOwner then
    !(p.authorizedSessions.any (fun m => m.sid == some currentSid))
  else
    (p.lastSessionId != currentSid) && (p.pendingSessionId != some currentSid)

/-- The four client-visible session states of src/unnamed/part_002's
render logic. -/
inductive SessionState where
  | stale
  | pendingSelf
  | pendingForeign
  | authorized
deriving Repr, DecidableEq

/-- Render-time state decision, src/unnamed/part_002 lines 173-237:
stale check first, then (standard accounts only) the pending-self screen
(line 193) and the pending-foreign approval dialog (line 210), else the
authorized dashboards. -/
def renderState (p : UserProfile) (currentSid : String) : SessionState :=
  if isStale p currentSid then
    SessionState.stale
  else if !(p.isAdmin || p.isOwner) && p.pendingSessionId == some currentSid then
    SessionState.pendingSelf
  else if !(p.isAdmin || p.isOwner) && pendingTruthy p.pendingSessionId
      && p.lastSessionId == currentSid then
    SessionState.pendingForeign
  else
    SessionState.authorized

/-- approvePendingSession, src/unnamed/part_002 lines 128-135.  The guard
`if (!profile.pendingSessionId) return` refuses on a null (or empty,
by JS truthiness) pending id; otherwise the pending id becomes
`lastSessionId` and both pending fields are cleared. -/
def approvePendingSession (p : UserProfile) : Option UserProfile :=
  match p.pendingSessionId with
  | none => none
  | some s =>
    if s == "" then none
    else some { p with
      lastSessionId := s
      pendingSessionId := none
      pendingSessionMetadata := none }

/-- denyPendingSession, src/unnamed/part_002 lines 137-143: always writes,
clearing both pending fields. -/
def denyPendingSession (p : UserProfile) : UserProfile :=
  { p with pendingSessionId := none, pendingSessionMetadata := none }

/-- handleAuthorizeSession, src/unnamed/part_001 lines 423-430 (AdminPanel
admin override): same guard and same write as approvePendingSession,
applied to the target user's profile. -/
def handleAuthorizeSession (u : UserProfile) : Option UserProfile :=
  match u.pendingSessionId with
  | none => none
  | some s =>
    if s == "" then none
    else some { u with
      lastSessionId := s
      pendingSessionId := none
      pendingSessionMetadata := none }

/-- handleToggleAdmin, src/unnamed/part_001 lines 414-421: refused unless
the caller is the owner; refused on an owner target; otherwise flips the
target's `isAdmin` flag (and nothing else). -/
def handleToggleAdmin (caller target : UserProfile) : Option UserProfile :=
  if !caller.isOwner then none
  else if target.isOwner then none
  else some { target with isAdmin := !target.isAdmin }

/-- handleRevokeDevice, src/unnamed/part_001 lines 432-439 (confirmation
dialog accepted): filters every entry with the given session id out of the
caller's own `authorizedSessions`. -/
def handleRevokeDevice (p : UserProfile) (sid : String) : UserProfile :=
  { p with authorizedSessions := p.authorizedSessions.filter (fun s => s.sid != some sid) }

/-- handleDeleteUser, src/unnamed/part_001 lines 441-446: returns whether
the delete is issued — refused before the confirmation dialog when the
target is the owner, otherwise issued iff the dialog is confirmed. -/
def handleDeleteUser (target : UserProfile) (confirmed : Bool) : Bool :=
  if target.isOwner then false else confirmed

/-- Structural invariant claimed by the spec's data-model section: a
standard profile keeps `authorizedSessions` empty; a privileged profile
keeps both pending fields null. -/
def structuralInv (p : UserProfile) : Bool :=
  if p.isAdmin || p.isOwner then
    p.pendingSessionId == none && p.pendingSessionMetadata == none
  else
    p.authorizedSessions.isEmpty

/-- Display projection of session metadata (device label and timestamp),
used to compare pending metadata across the two App versions ignoring the
`sid` field. -/
def metaDisplay (m : SessionMetadata) : String × Nat :=
  (m.deviceName, m.timestamp)

/-- Sample standard profile used by concrete witnesses. -/
def sampleStd : UserProfile :=
  { uid := "u1"
    email := "user@example.com"
    isAdmin := false
    isOwner := false
    isApproved := true
    lastSessionId := "a"
    authorizedSessions := []
    pendingSessionId := none
    pendingSessionMetadata := none }

/-- Sample privileged (admin) profile used by concrete witnesses. -/
def sampleAdmin : UserProfile :=
  { uid := "u2"
    email := "admin@example.com"
    isAdmin := true
    isOwner := false
    isApproved := true
    lastSessionId := "a"
    authorizedSessions := [{ sid := some "a", deviceName := "d0", timestamp := 0 }]
    pendingSessionId := none
    pendingSessionMetadata := none }

/-- Sample owner profile used by concrete witnesses. -/
def sampleOwner : UserProfile :=
  { uid := "u3"
    email := ROOT_OWNER_EMAIL
    isAdmin := true
    isOwner := true
    isApproved := true
    lastSessionId := "a"
    authorizedSessions := [{ sid := some "a", deviceName := "d0", timestamp := 0 }]
    pendingSessionId := none
    pendingSessionMetadata := none }

/-- All entries surviving a revoke of `a` have a session id different
from `a`, so the privileged membership test for `a` fails. -/
theorem revoke_removes_all (p : UserProfile) (a : String) :
    ((handleRevokeDevice p a).authorizedSessions.any (fun m => m.sid == some a)) = false := by
  rw [Bool.eq_false_iff]
  intro h
  rw [List.any_eq_true] at h
  obtain ⟨m, hm, hbeq⟩ := h
  rw [handleRevokeDevice] at hm
  simp only [List.mem_filter] at hm
  rw [beq_iff_eq] at hbeq
  rw [bne_iff_ne] at hm
  exact hm.2 hbeq

/-- C1: for a privileged profile, the src/unnamed/part_002 decision
function never touches the pending fields; when the local session id is
not yet among `authorizedSessions` (matched by session id) the record
`{S, deviceLabel, now}` is appended; the resulting state is AUTHORIZED;
and a re-evaluation with the same session id issues no write at all, so
no second entry with that id is ever added. -/
theorem privileged_eval_authorizes (p : UserProfile) (s d : String) (t : Nat)
    (hpriv : isPrivileged p = true) :
    (applyEvalCore p s d t).pendingSessionId = p.pendingSessionId ∧
    (applyEvalCore p s d t).pendingSessionMetadata = p.pendingSessionMetadata ∧
    (p.authorizedSessions.any (fun m => m.sid == some s) = false →
      (applyEvalCore p s d t).authorizedSessions
        = p.authorizedSessions ++ [{ sid := some s, deviceName := d, timestamp := t }]) ∧
    renderState (applyEvalCore p s d t) s = SessionState.authorized ∧
    (∀ d2 t2, evalSessionCore (applyEvalCore p s d t) s d2 t2 = none) := by
  have hb : (p.isAdmin || p.isOwner) = true := hpriv
  cases hmem : p.authorizedSessions.any (fun m => m.sid == some s) with
  | true =>
    have h2 : applyEvalCore p s d t = p := by
      simp [applyEvalCore, evalSessionCore, hb, hmem]
    rw [h2]
    refine ⟨rfl, rfl, ?_, ?_, ?_⟩
    · intro hc; exact absurd hc (by decide)
    · simp [renderState, isStale, hb, hmem]
    · intro d2 t2; simp [evalSessionCore, hb, hmem]
  | false =>
    have h2 : applyEvalCore p s d t
        = { p with authorizedSessions :=
            p.authorizedSessions ++ [{ sid := some s, deviceName := d, timestamp := t }] } := by
      simp [applyEvalCore, evalSessionCore, hb, hmem]
    rw [h2]
    refine ⟨rfl, rfl, fun _ => rfl, ?_, ?_⟩
    · simp [renderState, isStale, hb, hmem]
    · intro d2 t2; simp [evalSessionCore, hb, hmem]

/-- Witness for C1: the sample admin profile self-authorizes a fresh
session id and renders as authorized. -/
theorem privileged_eval_authorizes_witness :
    renderState (applyEvalCore sampleAdmin "s1" "dev" 3) "s1" = SessionState.authorized :=
  (privileged_eval_authorizes sampleAdmin "s1" "dev" 3 (by decide)).2.2.2.1

/-- C2 counterexample: a standard profile whose pending session id is
already "b" (with metadata timestamp 0) is mutated by re-evaluating with
"b" at time 5 — the handler re-issues the pending write, overwriting the
metadata with a fresh timestamp, so the profile is not left as it was. -/
theorem pending_reeval_mutates_cex :
    applyEvalCore
      { sampleStd with
        pendingSessionId := some "b"
        pendingSessionMetadata := some { sid := some "b", deviceName := "d0", timestamp := 0 } }
      "b" "d1" 5
    ≠ { sampleStd with
        pendingSessionId := some "b"
        pendingSessionMetadata := some { sid := some "b", deviceName := "d0", timestamp := 0 } } ∧
    (applyEvalCore
      { sampleStd with
        pendingSessionId := some "b"
        pendingSessionMetadata := some { sid := some "b", deviceName := "d0", timestamp := 0 } }
      "b" "d1" 5).pendingSessionMetadata
    = some { sid := some "b", deviceName := "d1", timestamp := 5 } := by
  decide

/-- C2 amended: for a standard profile with `S == pendingSessionId` and
`S != lastSessionId`, the evaluation yields PENDING_SELF, but it does
issue a write: `pendingSessionId` is re-set to the same S and
`pendingSessionMetadata` is overwritten with fresh metadata (current
device label and timestamp); every other field is unchanged. -/
theorem pending_reeval_pending_self (p : UserProfile) (s d : String) (t : Nat)
    (hstd : isPrivileged p = false)
    (hpend : p.pendingSessionId = some s)
    (hne : s ≠ p.lastSessionId) :
    evalSessionCore p s d t
      = some { p with
          pendingSessionId := some s
          pendingSessionMetadata := some { sid := some s, deviceName := d, timestamp := t } } ∧
    renderState (applyEvalCore p s d t) s = SessionState.pendingSelf ∧
    (applyEvalCore p s d t).lastSessionId = p.lastSessionId ∧
    (applyEvalCore p s d t).authorizedSessions = p.authorizedSessions ∧
    (applyEvalCore p s d t).isAdmin = p.isAdmin ∧
    (applyEvalCore p s d t).isOwner = p.isOwner ∧
    (applyEvalCore p s d t).isApproved = p.isApproved ∧
    (applyEvalCore p s d t).email = p.email ∧
    (applyEvalCore p s d t).uid = p.uid := by
  have hb : (p.isAdmin || p.isOwner) = false := hstd
  have hl : (p.lastSessionId != s) = true := by
    rw [bne_iff_ne]; exact fun hc => hne hc.symm
  have h1 : evalSessionCore p s d t
      = some { p with
          pendingSessionId := some s
          pendingSessionMetadata := some { sid := some s, deviceName := d, timestamp := t } } := by
    simp [evalSessionCore, hb, hl]
  have h2 : applyEvalCore p s d t
      = { p with
          pendingSessionId := some s
          pendingSessionMetadata := some { sid := some s, deviceName := d, timestamp := t } } := by
    simp [applyEvalCore, h1]
  rw [h2]
  refine ⟨h1, ?_, rfl, rfl, rfl, rfl, rfl, rfl, rfl⟩
  simp [renderState, isStale, hb]

/-- Witness for C2 amended: the sample standard profile pending on "b"
re-evaluates with "b" to PENDING_SELF. -/
theorem pending_reeval_pending_self_witness :
    renderState (applyEvalCore
      { sampleStd with
        pendingSessionId := some "b"
        pendingSessionMetadata := some { sid := some "b", deviceName := "d0", timestamp := 0 } }
      "b" "d1" 5) "b" = SessionState.pendingSelf :=
  (pending_reeval_pending_self
    { sampleStd with
      pendingSessionId := some "b"
      pendingSessionMetadata := some { sid := some "b", deviceName := "d0", timestamp := 0 } }
    "b" "d1" 5 (by decide) (by decide) (by decide)).2.1

/-- C3: approving a standard profile's pending session B makes B the last
session id, clears pending state, and afterwards the old session A is
STALE while B is AUTHORIZED.  (B ranges over generated session ids, which
are nonempty uuid strings; the handler's JS-truthiness guard refuses the
degenerate empty string.) -/
theorem approve_switches_session (p : UserProfile) (B : String)
    (hstd : isPrivileged p = false)
    (hB : p.pendingSessionId = some B)
    (hBne : B ≠ "")
    (hne : B ≠ p.lastSessionId) :
    approvePendingSession p
      = some { p with
          lastSessionId := B
          pendingSessionId := none
          pendingSessionMetadata := none } ∧
    renderState
      { p with lastSessionId := B, pendingSessionId := none, pendingSessionMetadata := none }
      p.lastSessionId = SessionState.stale ∧
    renderState
      { p with lastSessionId := B, pendingSessionId := none, pendingSessionMetadata := none }
      B = SessionState.authorized := by
  have hb : (p.isAdmin || p.isOwner) = false := hstd
  refine ⟨?_, ?_, ?_⟩
  · simp [approvePendingSession, hB, hBne]
  · simp [renderState, isStale, hb, pendingTruthy, bne_iff_ne, hne]
  · simp [renderState, isStale, hb, pendingTruthy]

/-- Witness for C3: after approving "b" on the sample standard profile,
session "b" is authorized. -/
theorem approve_switches_session_witness :
    renderState
      { { sampleStd with pendingSessionId := some "b" } with
        lastSessionId := "b", pendingSessionId := none, pendingSessionMetadata := none }
      "b" = SessionState.authorized :=
  (approve_switches_session { sampleStd with pendingSessionId := some "b" } "b"
    (by decide) (by decide) (by decide) (by decide)).2.2

/-- C4 counterexample: for a privileged profile whose authorizedSessions
list is empty (reachable by promoting a fresh standard user), deny()
leaves lastSessionId = "a" unchanged, yet the stale determination at "a"
yields STALE, because privileged staleness ignores lastSessionId. -/
theorem deny_privileged_stale_cex :
    (denyPendingSession
      { sampleAdmin with
        authorizedSessions := []
        pendingSessionId := some "b"
        pendingSessionMetadata := some { sid := some "b", deviceName := "d1", timestamp := 1 } }
      ).lastSessionId = "a" ∧
    renderState (denyPendingSession
      { sampleAdmin with
        authorizedSessions := []
        pendingSessionId := some "b"
        pendingSessionMetadata := some { sid := some "b", deviceName := "d1", timestamp := 1 } })
      "a" = SessionState.stale := by
  decide

/-- C4 amended: deny() clears both pending fields and changes no other
field of any profile; for a standard profile the stale determination with
the unchanged lastSessionId still yields AUTHORIZED (for a privileged
profile staleness is decided by authorizedSessions instead). -/
theorem deny_clears_pending_frame (p : UserProfile) :
    (denyPendingSession p).pendingSessionId = none ∧
    (denyPendingSession p).pendingSessionMetadata = none ∧
    (denyPendingSession p).lastSessionId = p.lastSessionId ∧
    (denyPendingSession p).isAdmin = p.isAdmin ∧
    (denyPendingSession p).isOwner = p.isOwner ∧
    (denyPendingSession p).isApproved = p.isApproved ∧
    (denyPendingSession p).authorizedSessions = p.authorizedSessions ∧
    (denyPendingSession p).email = p.email ∧
    (denyPendingSession p).uid = p.uid ∧
    (isPrivileged p = false →
      renderState (denyPendingSession p) p.lastSessionId = SessionState.authorized) := by
  refine ⟨rfl, rfl, rfl, rfl, rfl, rfl, rfl, rfl, rfl, ?_⟩
  intro h
  have hb : (p.isAdmin || p.isOwner) = false := h
  simp [renderState, isStale, denyPendingSession, hb, pendingTruthy]

/-- Witness for C4 amended: deny on the sample standard profile keeps its
own device authorized. -/
theorem deny_clears_pending_frame_witness :
    renderState (denyPendingSession sampleStd) sampleStd.lastSessionId
      = SessionState.authorized :=
  (deny_clears_pending_frame sampleStd).2.2.2.2.2.2.2.2.2 (by decide)

/-- C5: the first evaluation for a never-seen identity creates a profile
whose owner, admin and approval flags all equal the configured-owner-email
test, with lastSessionId = S, no pending session, authorizedSessions
holding exactly the creating session for the owner and empty otherwise,
and the creating session renders as authorized immediately. -/
theorem first_eval_creates_profile (uid : String) (email : Option String)
    (s d : String) (t : Nat) :
    (createProfile uid email s d t).isOwner = (email == some ROOT_OWNER_EMAIL) ∧
    (createProfile uid email s d t).isAdmin = (createProfile uid email s d t).isOwner ∧
    (createProfile uid email s d t).isApproved = (createProfile uid email s d t).isOwner ∧
    (createProfile uid email s d t).lastSessionId = s ∧
    (createProfile uid email s d t).pendingSessionId = none ∧
    (createProfile uid email s d t).authorizedSessions
      = (if (createProfile uid email s d t).isOwner = true
          then [{ sid := some s, deviceName := d, timestamp := t }] else []) ∧
    renderState (createProfile uid email s d t) s = SessionState.authorized := by
  cases ho : email == some ROOT_OWNER_EMAIL with
  | true => simp [createProfile, renderState, isStale, pendingTruthy, ho]
  | false => simp [createProfile, renderState, isStale, pendingTruthy, ho]

/-- C6 counterexample: revoking "a" from the sample admin empties
authorizedSessions, yet a later run of the decision function with local
session id "a" self-authorizes again and renders AUTHORIZED, not STALE. -/
theorem revoke_reeval_cex :
    (handleRevokeDevice sampleAdmin "a").authorizedSessions = [] ∧
    renderState (applyEvalCore (handleRevokeDevice sampleAdmin "a") "a" "d2" 7) "a"
      = SessionState.authorized := by
  decide

/-- C6 amended: revoke(A) removes every entry with session id A, and the
render-time stale determination with A (without re-running the decision
function) yields STALE; a later full evaluation with A, however,
re-appends A to authorizedSessions and yields AUTHORIZED. -/
theorem revoke_stale_determination (p : UserProfile) (a : String)
    (hpriv : isPrivileged p = true) :
    (∀ m ∈ (handleRevokeDevice p a).authorizedSessions, m.sid ≠ some a) ∧
    renderState (handleRevokeDevice p a) a = SessionState.stale ∧
    (∀ d t, renderState (applyEvalCore (handleRevokeDevice p a) a d t) a
      = SessionState.authorized) := by
  have hb : (p.isAdmin || p.isOwner) = true := hpriv
  have hany : ((p.authorizedSessions.filter fun s => s.sid != some a).any
      fun m => m.sid == some a) = false := revoke_removes_all p a
  refine ⟨?_, ?_, ?_⟩
  · intro m hm
    rw [handleRevokeDevice] at hm
    simp only [List.mem_filter] at hm
    rw [bne_iff_ne] at hm
    exact hm.2
  · simp [renderState, isStale, handleRevokeDevice, hb, hany]
  · intro d t
    have h2 : applyEvalCore (handleRevokeDevice p a) a d t
        = { handleRevokeDevice p a with authorizedSessions :=
            (handleRevokeDevice p a).authorizedSessions
              ++ [{ sid := some a, deviceName := d, timestamp := t }] } := by
      simp [applyEvalCore, evalSessionCore, handleRevokeDevice, hb, hany]
    rw [h2]
    simp [renderState, isStale, handleRevokeDevice, hb]

/-- Witness for C6 amended: after the sample admin revokes "a", the stale
determination at "a" yields STALE. -/
theorem revoke_stale_determination_witness :
    renderState (handleRevokeDevice sampleAdmin "a") "a" = SessionState.stale :=
  (revoke_stale_determination sampleAdmin "a" (by decide)).2.1

/-- C7: the admin override handleAuthorizeSession computes exactly the
same profile update as approvePendingSession on every profile; with a
pending session id present (a nonempty generated id) both set
lastSessionId to it and clear the pending fields, and with no pending
request both perform no write. -/
theorem authorize_equiv_approve (p : UserProfile) :
    handleAuthorizeSession p = approvePendingSession p ∧
    (∀ s, p.pendingSessionId = some s → s ≠ "" →
      handleAuthorizeSession p
        = some { p with
            lastSessionId := s
            pendingSessionId := none
            pendingSessionMetadata := none }) ∧
    (p.pendingSessionId = none →
      handleAuthorizeSession p = none ∧ approvePendingSession p = none) := by
  refine ⟨?_, ?_, ?_⟩
  · cases hp : p.pendingSessionId with
    | none => simp [handleAuthorizeSession, approvePendingSession, hp]
    | some s => simp [handleAuthorizeSession, approvePendingSession, hp]
  · intro s hs hne
    simp [handleAuthorizeSession, hs, hne]
  · intro h
    simp [handleAuthorizeSession, approvePendingSession, h]

/-- Witness for C7: on a profile pending on "b", the admin override issues
the approve() write. -/
theorem authorize_equiv_approve_witness :
    handleAuthorizeSession { sampleStd with pendingSessionId := some "b" }
      = some { { sampleStd with pendingSessionId := some "b" } with
          lastSessionId := "b"
          pendingSessionId := none
          pendingSessionMetadata := none } :=
  (authorize_equiv_approve { sampleStd with pendingSessionId := some "b" }).2.1
    "b" rfl (by decide)

/-- C8 counterexample: the admin role toggle breaks the structural
invariant — promoting a standard user whose pending request is "b" yields
a privileged profile with non-null pendingSessionId. -/
theorem toggle_admin_invariant_cex :
    structuralInv
      { sampleStd with
        pendingSessionId := some "b"
        pendingSessionMetadata := some { sid := some "b", deviceName := "d1", timestamp := 1 } }
      = true ∧
    handleToggleAdmin sampleOwner
      { sampleStd with
        pendingSessionId := some "b"
        pendingSessionMetadata := some { sid := some "b", deviceName := "d1", timestamp := 1 } }
      = some { sampleStd with
          isAdmin := true
          pendingSessionId := some "b"
          pendingSessionMetadata := some { sid := some "b", deviceName := "d1", timestamp := 1 } } ∧
    structuralInv
      { sampleStd with
        isAdmin := true
        pendingSessionId := some "b"
        pendingSessionMetadata := some { sid := some "b", deviceName := "d1", timestamp := 1 } }
      = false := by
  decide

/-- C8 amended: profile creation establishes the structural invariant,
and session evaluation, approve, deny, revoke and the admin session
authorization preserve it; the admin role toggle is the one listed
operation that does not (it flips isAdmin without clearing the session
fields). -/
theorem ops_preserve_structural_inv (p : UserProfile)
    (u : String) (email : Option String) (s d : String) (t : Nat) (a : String)
    (h : structuralInv p = true) :
    structuralInv (createProfile u email s d t) = true ∧
    structuralInv (applyEvalCore p s d t) = true ∧
    (∀ p', approvePendingSession p = some p' → structuralInv p' = true) ∧
    structuralInv (denyPendingSession p) = true ∧
    structuralInv (handleRevokeDevice p a) = true ∧
    (∀ p', handleAuthorizeSession p = some p' → structuralInv p' = true) := by
  cases hb : p.isAdmin || p.isOwner with
  | true =>
    rw [structuralInv, if_pos hb] at h
    have hpend : p.pendingSessionId = none := by
      have := (Bool.and_eq_true _ _).mp h
      exact eq_of_beq this.1
    have hmeta : p.pendingSessionMetadata = none := by
      have := (Bool.and_eq_true _ _).mp h
      exact eq_of_beq this.2
    refine ⟨?_, ?_, ?_, ?_, ?_, ?_⟩
    · cases ho : email == some ROOT_OWNER_EMAIL with
      | true => simp [structuralInv, createProfile, ho]
      | false => simp [structuralInv, createProfile, ho]
    · cases hmem : p.authorizedSessions.any (fun m => m.sid == some s) with
      | true => simp [structuralInv, applyEvalCore, evalSessionCore, hb, hmem, hpend, hmeta]
      | false => simp [structuralInv, applyEvalCore, evalSessionCore, hb, hmem, hpend, hmeta]
    · intro p' hp'
      rw [approvePendingSession, hpend] at hp'
      cases hp'
    · simp [structuralInv, denyPendingSession, hb]
    · simp [structuralInv, handleRevokeDevice, hb, hpend, hmeta]
    · intro p' hp'
      rw [handleAuthorizeSession, hpend] at hp'
      cases hp'
  | false =>
    rw [structuralInv, if_neg (by rw [hb]; exact Bool.false_ne_true)] at h
    have hse : p.authorizedSessions = [] := by
      rwa [List.isEmpty_iff] at h
    refine ⟨?_, ?_, ?_, ?_, ?_, ?_⟩
    · cases ho : email == some ROOT_OWNER_EMAIL with
      | true => simp [structuralInv, createProfile, ho]
      | false => simp [structuralInv, createProfile, ho]
    · cases hl : p.lastSessionId != s with
      | true => simp [structuralInv, applyEvalCore, evalSessionCore, hb, hl, hse]
      | false => simp [structuralInv, applyEvalCore, evalSessionCore, hb, hl, hse]
    · intro p' hp'
      cases hp2 : p.pendingSessionId with
      | none => rw [approvePendingSession, hp2] at hp'; cases hp'
      | some sb =>
        by_cases hsb : sb = ""
        · simp [approvePendingSession, hp2, hsb] at hp'
        · simp [approvePendingSession, hp2, hsb] at hp'
          subst hp'
          simp [structuralInv, hb, hse]
    · simp [structuralInv, denyPendingSession, hb, hse]
    · simp [structuralInv, handleRevokeDevice, hb, hse]
    · intro p' hp'
      cases hp2 : p.pendingSessionId with
      | none => rw [handleAuthorizeSession, hp2] at hp'; cases hp'
      | some sb =>
        by_cases hsb : sb = ""
        · simp [handleAuthorizeSession, hp2, hsb] at hp'
        · simp [handleAuthorizeSession, hp2, hsb] at hp'
          subst hp'
          simp [structuralInv, hb, hse]

/-- Witness for C8 amended: deny preserves the invariant on the sample
standard profile. -/
theorem ops_preserve_structural_inv_witness :
    structuralInv (denyPendingSession sampleStd) = true :=
  (ops_preserve_structural_inv sampleStd "u9" none "s9" "d9" 9 "a" (by decide)).2.2.2.1

/-- C9: role toggle and delete are refused (no write) on an owner target,
regardless of caller; the role toggle is also refused whenever the caller
is not the owner. -/
theorem owner_mutation_refused (caller target : UserProfile) (confirmed : Bool) :
    (target.isOwner = true →
      handleToggleAdmin caller target = none ∧ handleDeleteUser target confirmed = false) ∧
    (caller.isOwner = false → handleToggleAdmin caller target = none) := by
  constructor
  · intro h
    constructor
    · cases hc : caller.isOwner with
      | true => simp [handleToggleAdmin, hc, h]
      | false => simp [handleToggleAdmin, hc]
    · simp [handleDeleteUser, h]
  · intro h
    simp [handleToggleAdmin, h]

/-- Witness for C9: the owner profile cannot be toggled or deleted even by
itself. -/
theorem owner_mutation_refused_witness :
    handleToggleAdmin sampleOwner sampleOwner = none ∧
    handleDeleteUser sampleOwner true = false :=
  (owner_mutation_refused sampleOwner sampleOwner true).1 (by decide)

/-- C10 counterexample: on a privileged profile with no authorized entry
for "b", the legacy src/App.tsx handler registers a pending request while
the src/unnamed/part_002 handler appends to authorizedSessions — a
different set of written fields and a different resulting profile. -/
theorem eval_versions_diverge_cex :
    evalSessionApp { sampleAdmin with authorizedSessions := [] } "b" "d" 1
      = some { sampleAdmin with
          authorizedSessions := []
          pendingSessionId := some "b"
          pendingSessionMetadata := some { sid := none, deviceName := "d", timestamp := 1 } } ∧
    evalSessionCore { sampleAdmin with authorizedSessions := [] } "b" "d" 1
      = some { sampleAdmin with
          authorizedSessions := [{ sid := some "b", deviceName := "d", timestamp := 1 }] } ∧
    applyEvalApp { sampleAdmin with authorizedSessions := [] } "b" "d" 1
      ≠ applyEvalCore { sampleAdmin with authorizedSessions := [] } "b" "d" 1 := by
  decide

/-- C10 amended: the two shipped session-evaluation handlers agree only on
standard profiles — there they write the same fields (or both skip the
write) with the same pendingSessionId and the same metadata device label
and timestamp, differing only in that src/App.tsx omits the sid from the
pending metadata; for privileged profiles they diverge. -/
theorem eval_versions_agree_standard (p : UserProfile) (s d : String) (t : Nat)
    (hstd : isPrivileged p = false) :
    ((evalSessionApp p s d t).isSome = (evalSessionCore p s d t).isSome) ∧
    (applyEvalApp p s d t).lastSessionId = (applyEvalCore p s d t).lastSessionId ∧
    (applyEvalApp p s d t).pendingSessionId = (applyEvalCore p s d t).pendingSessionId ∧
    (applyEvalApp p s d t).authorizedSessions = (applyEvalCore p s d t).authorizedSessions ∧
    (applyEvalApp p s d t).isAdmin = (applyEvalCore p s d t).isAdmin ∧
    (applyEvalApp p s d t).isOwner = (applyEvalCore p s d t).isOwner ∧
    (applyEvalApp p s d t).isApproved = (applyEvalCore p s d t).isApproved ∧
    (applyEvalApp p s d t).email = (applyEvalCore p s d t).email ∧
    (applyEvalApp p s d t).uid = (applyEvalCore p s d t).uid ∧
    ((applyEvalApp p s d t).pendingSessionMetadata.map metaDisplay
      = (applyEvalCore p s d t).pendingSessionMetadata.map metaDisplay) := by
  have hb : (p.isAdmin || p.isOwner) = false := hstd
  cases hl : p.lastSessionId != s with
  | true =>
    simp [evalSessionApp, evalSessionCore, applyEvalApp, applyEvalCore, hb, hl, metaDisplay]
  | false =>
    simp [evalSessionApp, evalSessionCore, applyEvalApp, applyEvalCore, hb, hl, metaDisplay]

/-- Witness for C10 amended: on the sample standard profile both versions
register the same pending session id "b". -/
theorem eval_versions_agree_standard_witness :
    (applyEvalApp sampleStd "b" "d" 1).pendingSessionId
      = (applyEvalCore sampleStd "b" "d" 1).pendingSessionId :=
  (eval_versions_agree_standard sampleStd "b" "d" 1 (by decide)).2.2.1

end Flexer
